import Mathlib

/-!
Shallow embedding of `parsel/selector.py` (the unified Selector abstraction:
typed document roots, query dispatch, result wrapping, namespace scoping and
node removal), together with theorems settling the frozen claims about it.

External collaborators (the lxml parser/serializer, the XPath evaluator, the
cssselect-based CSS-to-XPath translator, `json.loads`, `jmespath.search` and
Python's `str`) are modelled as components of an explicit context `Ctx`:
each is a total Lean function whose `Option`/shape encodes the exceptional
outcomes the source code distinguishes.  The code of `selector.py` itself is
translated line by line into the definitions below.
-/

namespace Parsel

/-- A Python runtime value as far as `selector.py` distinguishes values:
`None`, booleans, numbers, character strings, lists, dicts, and lxml
element nodes.  An element handle carries an arena index (used by the
removal model) and its `.text` attribute (used by `Selector.jmespath`). -/
inductive PValue where
  | pyNone
  | pyBool (b : Bool)
  | pyInt (n : Int)
  | pyStr (s : String)
  | pyList (xs : List PValue)
  | pyDict (kvs : List (String × PValue))
  | pyElem (i : Nat) (text : Option String)

/-- `True` exactly for lxml element nodes: the only held values with
`getparent`/`xpath` attributes. -/
def PValue.isElem : PValue → Bool
  | .pyElem _ _ => true
  | _ => false

/-- The closed set of selector types accepted by `Selector.__init__`
(`'html'`, `'xml'`, `'json'`, `'text'`). -/
inductive SType where
  | html
  | xml
  | json
  | text
  deriving DecidableEq, Repr

/-- Decoding of the `type` string argument of `Selector.__init__`;
`Option.none` for any string outside `('html', 'json', 'text', 'xml')`. -/
def strToType (ts : String) : Option SType :=
  if ts = "html" then some SType.html
  else if ts = "xml" then some SType.xml
  else if ts = "json" then some SType.json
  else if ts = "text" then some SType.text
  else Option.none

/-- The string form of a selector type, as stored in `self.type`. -/
def typeToStr : SType → String
  | SType.html => "html"
  | SType.xml => "xml"
  | SType.json => "json"
  | SType.text => "text"

/-- The `text` argument of `Selector.__init__`: a decoded string, raw
bytes, or some other non-string object (only `str` passes the
`isinstance(text, six.text_type)` check). -/
inductive TextArg where
  | str (s : String)
  | bytes (bs : List Nat)
  | other
  deriving DecidableEq, Repr

/-- The exceptions `selector.py` can raise, by raise site. -/
inductive PyErr where
  | invalidTypeErr (t : String)
  | needTextOrRoot
  | textTypeErr
  | xpathErr (q : String)
  | cannotUseXpathOn (t : SType)
  | cannotUseCssOn (t : SType)
  | cssTranslateErr (q : String)
  | cannotRemoveWithoutRoot
  | cannotRemoveWithoutParent
  | attrErr
  | typeErr
  deriving DecidableEq, Repr

/-- A Python dict mapping namespace prefixes to URIs, modelled by its
lookup function. -/
def NsDict : Type := String → Option String

/-- `d.update(u)` followed by lookup: keys of `u` win on collision. -/
def nsUpd (d u : NsDict) : NsDict := fun k =>
  match u k with
  | some v => some v
  | Option.none => d k

/-- `Selector._default_namespaces`. -/
def defaultNamespaces : NsDict := fun k =>
  if k = "re" then some "http://exslt.org/regular-expressions"
  else if k = "set" then some "http://exslt.org/sets"
  else Option.none

/-- `self.namespaces = dict(self._default_namespaces)` followed by
`self.namespaces.update(namespaces)` when an argument was given. -/
def mkNs : Option NsDict → NsDict
  | Option.none => defaultNamespaces
  | some n => nsUpd defaultNamespaces n

/-- Python `str.strip()` whitespace (the ASCII whitespace characters). -/
def pyIsSpace (c : Char) : Bool :=
  c = ' ' ∨ c = '\t' ∨ c = '\n' ∨ c = '\r' ∨ c = '\x0b' ∨ c = '\x0c'

/-- `text.strip()`. -/
def pyStrip (s : String) : String :=
  String.mk (((s.toList.dropWhile pyIsSpace).reverse.dropWhile pyIsSpace).reverse)

/-- `.replace('\x00', '')`. -/
def stripNul (s : String) : String :=
  String.mk (s.toList.filter (fun c => c ≠ '\x00'))

/-- The body handed to the parser by `create_root_node`:
`text.strip().replace('\x00', '').encode('utf8') or b'<html/>'`
(the empty-document stand-in is substituted when the stripped body is
empty). -/
def rootBody (text : String) : String :=
  let b := stripNul (pyStrip text)
  if b = "" then "<html/>" else b

/-- `create_root_node(text, parser_cls, base_url)`: parse the stripped
body in recovery mode; if the parser yields no root (`root is None`),
retry on the `<html/>` stand-in and store that result as-is. -/
def create_root_node (parse : String → Option PValue) (text : String) : PValue :=
  match parse (rootBody text) with
  | some root => root
  | Option.none =>
    match parse "<html/>" with
    | some root => root
    | Option.none => PValue.pyNone

/-- The external collaborators consumed by `selector.py`, as total
functions.  `Option.none` encodes the exceptional outcome each caller in
the source distinguishes: a `None` root for `parse`, an
`AttributeError`/`TypeError` for `tostring`, a `ValueError` for
`jsonLoads`, an `etree.XPathError` for `xpathEval`, and a cssselect
translation error for `cssToXpath`.  `jmesSearch` is `jmespath.search`
(total, returning a JSON-compatible value where `pyNone` is a null
result), and `pyToStr` is Python's `str`. -/
structure Ctx where
  parse : SType → String → Option PValue
  tostring : SType → PValue → Option String
  jsonLoads : String → Option PValue
  xpathEval : PValue → String → NsDict → Option PValue
  cssToXpath : SType → String → Option String
  jmesSearch : String → PValue → PValue
  pyToStr : PValue → String

/-- `_load_json_or_none(text)`: `json.loads` with `ValueError` mapped to
`None`. -/
def loadJsonOrNone (C : Ctx) (t : String) : PValue :=
  match C.jsonLoads t with
  | some v => v
  | Option.none => PValue.pyNone

/-- The state of a `Selector` instance: `self.type`, `self.root`,
`self.namespaces`, `self._expr` and `self._text`. -/
structure Selector where
  type : SType
  root : PValue
  namespaces : NsDict
  expr : Option String
  rawText : Option String

/-- `Selector.__init__` after the argument checks, dispatching on the
`text`/`type`/`root` arguments exactly as the source does. -/
def initChecked (C : Ctx) (text : Option TextArg) (ty : Option SType)
    (namespaces : Option NsDict) (root : Option PValue) (expr : Option String) :
    Except PyErr Selector :=
  if text.isNone && root.isNone then Except.error PyErr.needTextOrRoot
  else
    match text with
    | some (TextArg.str s) =>
      match ty with
      | some SType.json =>
        Except.ok { type := SType.json, root := loadJsonOrNone C s,
                    namespaces := mkNs namespaces, expr := expr, rawText := some s }
      | some SType.text =>
        Except.ok { type := SType.text, root := PValue.pyStr s,
                    namespaces := mkNs namespaces, expr := expr, rawText := some s }
      | some SType.html =>
        Except.ok { type := SType.html, root := create_root_node (C.parse SType.html) s,
                    namespaces := mkNs namespaces, expr := expr, rawText := some s }
      | some SType.xml =>
        Except.ok { type := SType.xml, root := create_root_node (C.parse SType.xml) s,
                    namespaces := mkNs namespaces, expr := expr, rawText := some s }
      | Option.none =>
        Except.ok { type := SType.html, root := create_root_node (C.parse SType.html) s,
                    namespaces := mkNs namespaces, expr := expr, rawText := some s }
    | some _ => Except.error PyErr.textTypeErr
    | Option.none =>
      let r := root.getD PValue.pyNone
      let t := match ty with
               | some t => t
               | Option.none => if r.isElem then SType.html else SType.json
      Except.ok { type := t, root := r, namespaces := mkNs namespaces,
                  expr := expr, rawText := Option.none }

/-- `Selector.__init__(text, type, namespaces, root, base_url, _expr)`.
The `type` argument is validated first; a missing `root` argument is
`Option.none` (the `_NOTSET` sentinel).  Raised exceptions become
`Except.error`. -/
def Selector.init (C : Ctx) (text : Option TextArg) (typeStr : Option String)
    (namespaces : Option NsDict) (root : Option PValue) (expr : Option String) :
    Except PyErr Selector :=
  match typeStr with
  | some ts =>
    match strToType ts with
    | Option.none => Except.error (PyErr.invalidTypeErr ts)
    | some ty => initChecked C text (some ty) namespaces root expr
  | Option.none => initChecked C text Option.none namespaces root expr

/-- `Selector.get()`: for `text`/`json` types the stored value is
returned as-is; for tree types the node is serialized via
`etree.tostring`, with the `AttributeError`/`TypeError` fallback mapping
`True`/`False` to `'1'`/`'0'` and anything else through `str`. -/
def Selector.get (C : Ctx) (s : Selector) : PValue :=
  if s.type = SType.text ∨ s.type = SType.json then s.root
  else
    match C.tostring s.type s.root with
    | some out => PValue.pyStr out
    | Option.none =>
      match s.root with
      | PValue.pyBool true => PValue.pyStr "1"
      | PValue.pyBool false => PValue.pyStr "0"
      | r => PValue.pyStr (C.pyToStr r)

/-- `Selector.getall()`: a 1-element list wrapping `get()`. -/
def Selector.getall (C : Ctx) (s : Selector) : List PValue :=
  [s.get C]

/-- `SelectorList.getall()`: `[x.get() for x in self]`. -/
def SelectorList.getall (C : Ctx) (L : List Selector) : List PValue :=
  L.map (Selector.get C)

/-- `SelectorList.get(default)`: `get()` of the first element, or the
default when the list is empty (the `for`-loop with an early `return`). -/
def SelectorList.getFirst (C : Ctx) (L : List Selector) (default : PValue) : PValue :=
  match L with
  | [] => default
  | x :: _ => x.get C

/-- A list comprehension over a fallible per-element operation: the first
raised exception propagates. -/
def mapExcept {ε α β : Type} (f : α → Except ε β) : List α → Except ε (List β)
  | [] => Except.ok []
  | x :: xs =>
    match f x with
    | Except.error e => Except.error e
    | Except.ok y =>
      match mapExcept f xs with
      | Except.error e => Except.error e
      | Except.ok ys => Except.ok (y :: ys)

/-- The common prologue of `Selector.xpath`/`Selector.css`: a `text`
selector is reinterpreted as `html` by re-parsing its stored string
(`self._load_lxml_root(self.root, type='html')`, an `AttributeError` if
the stored value is not a string), and any type other than
`html`/`xml` is rejected with the method-specific `ValueError`. -/
def Selector.promoteTree (C : Ctx) (s : Selector) (err : PyErr) : Except PyErr Selector :=
  match s.type with
  | SType.text =>
    match s.root with
    | PValue.pyStr t =>
      Except.ok { s with type := SType.html,
                         root := create_root_node (C.parse SType.html) t }
    | _ => Except.error PyErr.attrErr
  | SType.html => Except.ok s
  | SType.xml => Except.ok s
  | SType.json => Except.error err

/-- The body of `Selector.xpath` after type promotion, evaluating with
an already-merged namespace mapping `nsp`: a held value without an
`.xpath` attribute short-circuits to an empty list; an evaluator error
becomes a `ValueError`; a non-list result is wrapped into a 1-element
list; each item is wrapped through `Selector.__init__` with
`root=x, _expr=query, namespaces=self.namespaces, type=self.type`. -/
def Selector.xpathCore (C : Ctx) (s : Selector) (query : String) (nsp : NsDict) :
    Except PyErr (List Selector) :=
  match s.root with
  | PValue.pyElem i tx =>
    match C.xpathEval (PValue.pyElem i tx) query nsp with
    | Option.none => Except.error (PyErr.xpathErr query)
    | some result =>
      mapExcept
        (fun x => Selector.init C Option.none (some (typeToStr s.type))
                    (some s.namespaces) (some x) (some query))
        (match result with
         | PValue.pyList xs => xs
         | r => [r])
  | _ => Except.ok []

/-- `Selector.xpath(query, namespaces)`: promotes `text` to `html`,
merges the instance namespace registry with the call-scoped mapping
(call-scoped wins), evaluates, and wraps the results.  The returned
selector is the post-call state of `self` (its mutation by
`_load_lxml_root` made explicit). -/
def Selector.xpath (C : Ctx) (s : Selector) (query : String)
    (namespaces : Option NsDict) : Except PyErr (Selector × List Selector) :=
  match Selector.promoteTree C s (PyErr.cannotUseXpathOn s.type) with
  | Except.error e => Except.error e
  | Except.ok s1 =>
    let nsp := match namespaces with
               | some n => nsUpd s1.namespaces n
               | Option.none => s1.namespaces
    match Selector.xpathCore C s1 query nsp with
    | Except.error e => Except.error e
    | Except.ok results => Except.ok (s1, results)

/-- `Selector.css(query)`: promotes `text` to `html`, obtains the
type-appropriate CSS-to-XPath translation, and delegates to `xpath`
with the translated expression; a translation error propagates. -/
def Selector.css (C : Ctx) (s : Selector) (query : String) :
    Except PyErr (Selector × List Selector) :=
  match Selector.promoteTree C s (PyErr.cannotUseCssOn s.type) with
  | Except.error e => Except.error e
  | Except.ok s1 =>
    match C.cssToXpath s1.type query with
    | Option.none => Except.error (PyErr.cssTranslateErr query)
    | some xq => Selector.xpath C s1 xq Option.none

/-- The data-resolution prologue of `Selector.jmespath`: a `json`
selector queries its stored value directly; a string root is parsed as
JSON; an element root has its `.text` parsed (falling back to
`json.loads(self._text)`, a `TypeError` when `_text` is `None`); any
other root raises an `AttributeError` at `self.root.text`. -/
def Selector.jmesData (C : Ctx) (s : Selector) : Except PyErr PValue :=
  if s.type = SType.json then Except.ok s.root
  else
    match s.root with
    | PValue.pyStr t => Except.ok (loadJsonOrNone C t)
    | PValue.pyElem _ tx =>
      match tx with
      | Option.none =>
        match s.rawText with
        | some t => Except.ok (loadJsonOrNone C t)
        | Option.none => Except.error PyErr.typeErr
      | some t => Except.ok (loadJsonOrNone C t)
    | _ => Except.error PyErr.attrErr

/-- Python `type or 'text'` for the optional `type` argument of
`jmespath` (an empty string is falsy). -/
def pyOrText : Option String → String
  | some t => if t = "" then "text" else t
  | Option.none => "text"

/-- The `make_selector` closure of `Selector.jmespath`: a
character-string item is wrapped with `text=x, type=type or 'text'`,
any other item with `root=x, type=type`, through `Selector.__init__`. -/
def jmesWrap (C : Ctx) (query : String) (typeArg : Option String) (x : PValue) :
    Except PyErr Selector :=
  match x with
  | PValue.pyStr t =>
    Selector.init C (some (TextArg.str t)) (some (pyOrText typeArg))
      Option.none Option.none (some query)
  | _ => Selector.init C Option.none typeArg Option.none (some x) (some query)

/-- `Selector.jmespath(query, type)`: resolves the JSON document,
evaluates `jmespath.search`, normalizes `None` to `[]` and a non-list
result to a 1-element list, then wraps each item through
`make_selector`. -/
def Selector.jmespath (C : Ctx) (s : Selector) (query : String)
    (typeArg : Option String) : Except PyErr (List Selector) :=
  match Selector.jmesData C s with
  | Except.error e => Except.error e
  | Except.ok data =>
    let result := C.jmesSearch query data
    let items := match result with
                 | PValue.pyNone => []
                 | PValue.pyList xs => xs
                 | r => [r]
    mapExcept (jmesWrap C query typeArg) items

/-- An lxml element in the arena model of a parsed tree: its parent
index (absent for the document root) and the indices of its children. -/
structure ENode where
  parent : Option Nat
  children : List Nat
  deriving DecidableEq, Repr

/-- A parsed document: an arena of elements addressed by index.  A
removed node stays in the arena (detached but still readable). -/
structure Doc where
  nodes : List ENode
  deriving DecidableEq, Repr

/-- `Selector.remove()`: `self.root.getparent()` raises an
`AttributeError` (mapped to `CannotRemoveElementWithoutRoot`) when the
held value is not an element; `parent.remove(self.root)` raises an
`AttributeError` (mapped to `CannotRemoveElementWithoutParent`) when the
parent is `None`, i.e. the node is the document root; otherwise the node
is unlinked from its parent's child list and its parent pointer is
cleared (lxml's removal semantics). -/
def Selector.remove (doc : Doc) (s : Selector) : Except PyErr Doc :=
  match s.root with
  | PValue.pyElem i _ =>
    match doc.nodes[i]? with
    | Option.none => Except.error PyErr.attrErr
    | some node =>
      match node.parent with
      | Option.none => Except.error PyErr.cannotRemoveWithoutParent
      | some j =>
        match doc.nodes[j]? with
        | Option.none => Except.error PyErr.attrErr
        | some pnode =>
          let ns1 := doc.nodes.set j { pnode with children := pnode.children.erase i }
          let ns2 := match ns1[i]? with
                     | some ni => ns1.set i { ni with parent := Option.none }
                     | Option.none => ns1
          Except.ok ⟨ns2⟩
  | _ => Except.error PyErr.cannotRemoveWithoutRoot

/-- Splitter for dotted JMESPath field queries (structural recursion so
that concrete evaluation reduces in the kernel). -/
def splitDotsAux : List Char → List Char → List String
  | [], acc => [String.mk acc.reverse]
  | c :: rest, acc =>
    if c = '.' then String.mk acc.reverse :: splitDotsAux rest []
    else splitDotsAux rest (c :: acc)

/-- Modelled from the spec: the JMESPath evaluator collaborator
(`jmespath.search`, an external library absent from the sources),
restricted to the dotted field-access queries the spec exercises (§4.5,
§8): each dot-separated name projects a field out of an object, a
missing field or a non-object yielding null. -/
def jmesSearchModel (q : String) (d : PValue) : PValue :=
  (splitDotsAux q.toList []).foldl
    (fun acc k =>
      match acc with
      | PValue.pyDict kvs =>
        match kvs.lookup k with
        | some v => v
        | Option.none => PValue.pyNone
      | _ => PValue.pyNone) d

/-- A concrete instantiation of the collaborators, used to anchor the
hypotheses of the claim theorems on concrete inputs.  Its parser always
yields a root element, its serializer serializes elements only, and its
`json.loads` accepts only the literal `5`. -/
def ctx0 : Ctx where
  parse := fun _ t =>
    if t = "<html/>" then some (PValue.pyElem 0 Option.none)
    else some (PValue.pyElem 1 Option.none)
  tostring := fun _ v =>
    match v with
    | PValue.pyElem _ _ => some "<p>x</p>"
    | _ => Option.none
  jsonLoads := fun t => if t = "5" then some (PValue.pyInt 5) else Option.none
  xpathEval := fun _ _ _ => some (PValue.pyList [])
  cssToXpath := fun _ q => some ("descendant-or-self::" ++ q)
  jmesSearch := jmesSearchModel
  pyToStr := fun _ => "None"

/-- A selector of type `html` holding a parsed root element. -/
def htmlElemSel : Selector :=
  { type := SType.html, root := PValue.pyElem 0 Option.none,
    namespaces := defaultNamespaces, expr := Option.none, rawText := Option.none }

/-- A selector of type `html` whose held value is a plain string (as
produced by a previous query that returned text). -/
def strRootHtmlSel : Selector :=
  { type := SType.html, root := PValue.pyStr "x",
    namespaces := defaultNamespaces, expr := Option.none, rawText := Option.none }

/-- A call-scoped namespace mapping used by witnesses. -/
def extraNs : NsDict := fun k => if k = "x" then some "http://example.com/x" else Option.none

/-- `strToType` inverts `typeToStr`. -/
theorem strToType_typeToStr (t : SType) : strToType (typeToStr t) = some t := by
  cases t <;> rfl

/-- Re-applying the default seeding to an already-seeded registry is the
identity: the registry of a selector constructed by `__init__` is a
fixed point of `mkNs ∘ some`. -/
theorem nsUpd_defaults_idem (m : NsDict) :
    nsUpd defaultNamespaces (nsUpd defaultNamespaces m) = nsUpd defaultNamespaces m := by
  funext k
  simp only [nsUpd]
  cases hm : m k with
  | some v => rfl
  | none => cases hd : defaultNamespaces k <;> rfl

/-- `__init__` called with `root=x` and a valid type string, as the query
methods do when wrapping results. -/
theorem init_root_eq (C : Ctx) (ts : String) (tk : SType) (hts : strToType ts = some tk)
    (ns : Option NsDict) (x : PValue) (e : Option String) :
    Selector.init C Option.none (some ts) ns (some x) e =
      Except.ok { type := tk, root := x, namespaces := mkNs ns, expr := e,
                  rawText := Option.none } := by
  simp only [Selector.init]
  rw [hts]
  rfl

/-- `__init__` called with `root=x` and no type: the type defaults to
`html` for an element root and `json` otherwise. -/
theorem init_root_none_eq (C : Ctx) (ns : Option NsDict) (x : PValue) (e : Option String) :
    Selector.init C Option.none Option.none ns (some x) e =
      Except.ok { type := if x.isElem then SType.html else SType.json, root := x,
                  namespaces := mkNs ns, expr := e, rawText := Option.none } := by
  rfl

/-- `__init__` called with a decoded `text` argument and declared kind
`html`. -/
theorem init_text_html_eq (C : Ctx) (s0 : String) (ns : Option NsDict)
    (root : Option PValue) (e : Option String) :
    Selector.init C (some (TextArg.str s0)) (some "html") ns root e =
      Except.ok { type := SType.html, root := create_root_node (C.parse SType.html) s0,
                  namespaces := mkNs ns, expr := e, rawText := some s0 } := by
  rfl

/-- `__init__` called with a decoded `text` argument and declared kind
`xml`. -/
theorem init_text_xml_eq (C : Ctx) (s0 : String) (ns : Option NsDict)
    (root : Option PValue) (e : Option String) :
    Selector.init C (some (TextArg.str s0)) (some "xml") ns root e =
      Except.ok { type := SType.xml, root := create_root_node (C.parse SType.xml) s0,
                  namespaces := mkNs ns, expr := e, rawText := some s0 } := by
  rfl

/-- `__init__` called with a decoded `text` argument and declared kind
`json`: the text is parsed as JSON, a parse failure silently stored as
`None`. -/
theorem init_text_json_eq (C : Ctx) (s0 : String) (ns : Option NsDict)
    (root : Option PValue) (e : Option String) :
    Selector.init C (some (TextArg.str s0)) (some "json") ns root e =
      Except.ok { type := SType.json, root := loadJsonOrNone C s0,
                  namespaces := mkNs ns, expr := e, rawText := some s0 } := by
  rfl

/-- `__init__` called with a decoded `text` argument and declared kind
`text`: the string is stored verbatim. -/
theorem init_text_text_eq (C : Ctx) (s0 : String) (ns : Option NsDict)
    (root : Option PValue) (e : Option String) :
    Selector.init C (some (TextArg.str s0)) (some "text") ns root e =
      Except.ok { type := SType.text, root := PValue.pyStr s0,
                  namespaces := mkNs ns, expr := e, rawText := some s0 } := by
  rfl

/-- Type promotion never touches the namespace registry, and on success
the promoted type is a tree type. -/
theorem promoteTree_ok (C : Ctx) (s : Selector) (err : PyErr) (s1 : Selector)
    (h : Selector.promoteTree C s err = Except.ok s1) :
    s1.namespaces = s.namespaces ∧ s1.rawText = s.rawText
      ∧ (s1.type = SType.html ∨ s1.type = SType.xml) := by
  unfold Selector.promoteTree at h
  cases ht : s.type <;> rw [ht] at h
  case html =>
    injection h with h1
    subst h1
    exact ⟨rfl, rfl, Or.inl ht⟩
  case xml =>
    injection h with h1
    subst h1
    exact ⟨rfl, rfl, Or.inr ht⟩
  case json => exact Except.noConfusion h
  case text =>
    cases hr : s.root <;> rw [hr] at h <;> try exact Except.noConfusion h
    case pyStr t =>
      injection h with h1
      subst h1
      exact ⟨rfl, rfl, Or.inl rfl⟩

/-- Promotion is the identity on a selector that is already of a tree
type. -/
theorem promoteTree_tree (C : Ctx) (s : Selector) (err : PyErr)
    (h : s.type = SType.html ∨ s.type = SType.xml) :
    Selector.promoteTree C s err = Except.ok s := by
  unfold Selector.promoteTree
  rcases h with h | h <;> rw [h]

/-- Members of a successful `mapExcept` run all come from a successful
application of the per-element operation. -/
theorem mapExcept_mem {ε α β : Type} (f : α → Except ε β) :
    ∀ (xs : List α) (ys : List β), mapExcept f xs = Except.ok ys →
      ∀ y ∈ ys, ∃ x ∈ xs, f x = Except.ok y := by
  intro xs
  induction xs with
  | nil =>
    intro ys h y hy
    unfold mapExcept at h
    have := (Except.ok.injEq _ _).mp h
    subst this
    cases hy
  | cons a as ih =>
    intro ys h y hy
    unfold mapExcept at h
    cases hfa : f a with
    | error e => rw [hfa] at h; exact absurd h (by simp)
    | ok b =>
      rw [hfa] at h
      cases hrest : mapExcept f as with
      | error e => rw [hrest] at h; exact absurd h (by simp)
      | ok bs =>
        rw [hrest] at h
        have := (Except.ok.injEq _ _).mp h
        subst this
        cases hy with
        | head => exact ⟨a, List.mem_cons_self a as, hfa⟩
        | tail _ hmem =>
          obtain ⟨x, hx, hfx⟩ := ih bs hrest y hmem
          exact ⟨x, List.mem_cons_of_mem a hx, hfx⟩

/-- Index-wise description of a successful `mapExcept` run. -/
theorem mapExcept_ok_get {ε α β : Type} (f : α → Except ε β) :
    ∀ (xs : List α) (ys : List β), mapExcept f xs = Except.ok ys →
      ∀ k : Nat, ys[k]? = xs[k]?.bind (fun x => (f x).toOption) := by
  intro xs
  induction xs with
  | nil =>
    intro ys h k
    unfold mapExcept at h
    have := (Except.ok.injEq _ _).mp h
    subst this
    rfl
  | cons a as ih =>
    intro ys h k
    unfold mapExcept at h
    cases hfa : f a with
    | error e => rw [hfa] at h; exact absurd h (by simp)
    | ok b =>
      rw [hfa] at h
      cases hrest : mapExcept f as with
      | error e => rw [hrest] at h; exact absurd h (by simp)
      | ok bs =>
        rw [hrest] at h
        have := (Except.ok.injEq _ _).mp h
        subst this
        cases k with
        | zero => simp [hfa, Except.toOption]
        | succ k => simpa using ih bs hrest k

/-- A successful `mapExcept` run preserves length. -/
theorem mapExcept_ok_length {ε α β : Type} (f : α → Except ε β) :
    ∀ (xs : List α) (ys : List β), mapExcept f xs = Except.ok ys →
      ys.length = xs.length := by
  intro xs
  induction xs with
  | nil =>
    intro ys h
    unfold mapExcept at h
    have := (Except.ok.injEq _ _).mp h
    subst this
    rfl
  | cons a as ih =>
    intro ys h
    unfold mapExcept at h
    cases hfa : f a with
    | error e => rw [hfa] at h; exact absurd h (by simp)
    | ok b =>
      rw [hfa] at h
      cases hrest : mapExcept f as with
      | error e => rw [hrest] at h; exact absurd h (by simp)
      | ok bs =>
        rw [hrest] at h
        have := (Except.ok.injEq _ _).mp h
        subst this
        simp [ih bs hrest]

/-- On a tree-typed selector, `get()` always produces a character
string: either the serializer's output or the
`'1'`/`'0'`/`str(self.root)` fallback. -/
theorem get_tree_is_string (C : Ctx) (s : Selector)
    (h : s.type = SType.html ∨ s.type = SType.xml) :
    ∃ out, Selector.get C s = PValue.pyStr out := by
  have hne : ¬(s.type = SType.text ∨ s.type = SType.json) := by
    rcases h with h | h <;> rw [h] <;> intro hc <;> rcases hc with hc | hc <;>
      exact SType.noConfusion hc
  unfold Selector.get
  rw [if_neg hne]
  cases hto : C.tostring s.type s.root with
  | some out => exact ⟨out, rfl⟩
  | none =>
    cases hr : s.root <;> try exact ⟨_, rfl⟩
    case pyBool b => cases b <;> exact ⟨_, rfl⟩

/-- C1: for every input string (including empty, whitespace-only and
NUL-only strings), constructing a Selector of kind `html` or `xml` never
raises; the root materializer strips whitespace and NULs and substitutes
the `<html/>` stand-in when the body comes out empty (retrying with the
stand-in when the parser yields no root), and `get()` on the resulting
selector returns a (non-null) string. -/
theorem C1_tree_construction_never_fails (C : Ctx) (text : String) (kind : SType)
    (hk : kind = SType.html ∨ kind = SType.xml) :
    ∃ s, Selector.init C (some (TextArg.str text)) (some (typeToStr kind))
           Option.none Option.none Option.none = Except.ok s
       ∧ s.type = kind
       ∧ s.root = create_root_node (C.parse kind) text
       ∧ (∃ out, Selector.get C s = PValue.pyStr out)
       ∧ (stripNul (pyStrip text) = "" →
            s.root = (C.parse kind "<html/>").getD PValue.pyNone)
       ∧ (C.parse kind (rootBody text) = Option.none →
            s.root = (C.parse kind "<html/>").getD PValue.pyNone) := by
  have hbody : ∀ k2 : SType, rootBody text = "<html/>" →
      create_root_node (C.parse k2) text = (C.parse k2 "<html/>").getD PValue.pyNone := by
    intro k2 hrb
    unfold create_root_node
    rw [hrb]
    cases h2 : C.parse k2 "<html/>" <;> rfl
  have hretry : ∀ k2 : SType, C.parse k2 (rootBody text) = Option.none →
      create_root_node (C.parse k2) text = (C.parse k2 "<html/>").getD PValue.pyNone := by
    intro k2 hp
    unfold create_root_node
    rw [hp]
    cases h2 : C.parse k2 "<html/>" <;> rfl
  rcases hk with hk | hk <;> subst hk
  · refine ⟨_, init_text_html_eq C text Option.none Option.none Option.none,
            rfl, rfl, get_tree_is_string C _ (Or.inl rfl), ?_, hretry SType.html⟩
    intro hb
    exact hbody SType.html (by simp [rootBody, hb])
  · refine ⟨_, init_text_xml_eq C text Option.none Option.none Option.none,
            rfl, rfl, get_tree_is_string C _ (Or.inr rfl), ?_, hretry SType.xml⟩
    intro hb
    exact hbody SType.xml (by simp [rootBody, hb])

/-- Witness for C1 at the NUL-only input string. -/
theorem C1_witness :
    ∃ s, Selector.init ctx0 (some (TextArg.str "\x00")) (some (typeToStr SType.html))
           Option.none Option.none Option.none = Except.ok s
       ∧ s.type = SType.html
       ∧ s.root = create_root_node (ctx0.parse SType.html) "\x00"
       ∧ (∃ out, Selector.get ctx0 s = PValue.pyStr out)
       ∧ (stripNul (pyStrip "\x00") = "" →
            s.root = (ctx0.parse SType.html "<html/>").getD PValue.pyNone)
       ∧ (ctx0.parse SType.html (rootBody "\x00") = Option.none →
            s.root = (ctx0.parse SType.html "<html/>").getD PValue.pyNone) :=
  C1_tree_construction_never_fails ctx0 "\x00" SType.html (Or.inl rfl)

/-- Promotion of a `text` selector holding a string re-parses the stored
string as html. -/
theorem promoteTree_text (C : Ctx) (s : Selector) (err : PyErr) (t : String)
    (ht : s.type = SType.text) (hr : s.root = PValue.pyStr t) :
    Selector.promoteTree C s err =
      Except.ok { s with type := SType.html,
                         root := create_root_node (C.parse SType.html) t } := by
  unfold Selector.promoteTree
  rw [ht, hr]

/-- C3: on a tree-typed selector, `css(q)` is exactly `xpath(t(q))`
where `t` is the type-selected CSS-to-XPath translator; a translation
failure propagates as an error; a `text`-typed selector is first
promoted to `html` (re-parsing its stored string) and then treated as an
html selector. -/
theorem C3_css_equals_translated_xpath (C : Ctx) (s : Selector) (q : String) :
    ((s.type = SType.html ∨ s.type = SType.xml) →
       ∀ xq, C.cssToXpath s.type q = some xq →
         Selector.css C s q = Selector.xpath C s xq Option.none)
  ∧ ((s.type = SType.html ∨ s.type = SType.xml) →
       C.cssToXpath s.type q = Option.none →
         Selector.css C s q = Except.error (PyErr.cssTranslateErr q))
  ∧ (∀ t, s.type = SType.text → s.root = PValue.pyStr t →
       Selector.css C s q =
         Selector.css C
           { s with type := SType.html,
                    root := create_root_node (C.parse SType.html) t } q) := by
  refine ⟨?_, ?_, ?_⟩
  · intro ht xq hxq
    simp [Selector.css, promoteTree_tree C s (PyErr.cannotUseCssOn s.type) ht, hxq]
  · intro ht hxq
    simp [Selector.css, promoteTree_tree C s (PyErr.cannotUseCssOn s.type) ht, hxq]
  · intro t ht hr
    have h1 := promoteTree_text C s (PyErr.cannotUseCssOn s.type) t ht hr
    have h2 := promoteTree_tree C
      { s with type := SType.html, root := create_root_node (C.parse SType.html) t }
      (PyErr.cannotUseCssOn SType.html) (Or.inl rfl)
    simp [Selector.css, h1, h2]

/-- Witness for C3 on an html selector holding a root element. -/
theorem C3_witness :
    Selector.css ctx0 htmlElemSel "p" =
      Selector.xpath ctx0 htmlElemSel "descendant-or-self::p" Option.none :=
  (C3_css_equals_translated_xpath ctx0 htmlElemSel "p").1 (Or.inl rfl)
    "descendant-or-self::p" rfl

/-- C8: `SelectorList.getall()` is the element-wise `get()` in order (so
its length is the number of matched nodes), and `SelectorList.get(d)` is
the first element of `getall()` when the list is non-empty and the
supplied default otherwise. -/
theorem C8_getall_get_agree (C : Ctx) (L : List Selector) (default : PValue) :
    (SelectorList.getall C L).length = L.length
  ∧ (∀ k : Nat, (SelectorList.getall C L)[k]? = (L[k]?).map (Selector.get C))
  ∧ (L ≠ [] → some (SelectorList.getFirst C L default) = (SelectorList.getall C L)[0]?)
  ∧ (L = [] → SelectorList.getFirst C L default = default) := by
  refine ⟨by simp [SelectorList.getall],
          fun k : Nat => by simp [SelectorList.getall], ?_, ?_⟩
  · intro h
    cases L with
    | nil => exact absurd rfl h
    | cons x xs => simp [SelectorList.getall, SelectorList.getFirst]
  · intro h
    subst h
    rfl

/-- Witness for C8 on a 1-element list. -/
theorem C8_witness :
    some (SelectorList.getFirst ctx0 [htmlElemSel] PValue.pyNone) =
      (SelectorList.getall ctx0 [htmlElemSel])[0]? :=
  (C8_getall_get_agree ctx0 [htmlElemSel] PValue.pyNone).2.2.1 (by simp)

/-- C10: `xpath` on an `html`/`xml` selector whose held value is not a
tree node returns an empty SelectorList instead of raising, and so does
`css` whenever its query translates. -/
theorem C10_non_node_root_yields_empty (C : Ctx) (s : Selector) (q : String)
    (ns : Option NsDict) (ht : s.type = SType.html ∨ s.type = SType.xml)
    (hr : s.root.isElem = false) :
    Selector.xpath C s q ns = Except.ok (s, [])
  ∧ (∀ xq, C.cssToXpath s.type q = some xq →
       Selector.css C s q = Except.ok (s, [])) := by
  have hcore : ∀ (q2 : String) (nsp : NsDict),
      Selector.xpathCore C s q2 nsp = Except.ok [] := by
    intro q2 nsp
    unfold Selector.xpathCore
    cases hv : s.root <;> try rfl
    case pyElem i tx =>
      rw [hv] at hr
      exact absurd hr (by simp [PValue.isElem])
  have hx : ∀ (q2 : String) (ns2 : Option NsDict),
      Selector.xpath C s q2 ns2 = Except.ok (s, []) := by
    intro q2 ns2
    unfold Selector.xpath
    rw [promoteTree_tree C s (PyErr.cannotUseXpathOn s.type) ht]
    cases ns2 <;> simp [hcore]
  refine ⟨hx q ns, ?_⟩
  intro xq hxq
  simp [Selector.css, promoteTree_tree C s (PyErr.cannotUseCssOn s.type) ht, hxq, hx]

/-- Witness for C10 on an html selector whose held value is a string. -/
theorem C10_witness :
    Selector.xpath ctx0 strRootHtmlSel "p" Option.none = Except.ok (strRootHtmlSel, [])
  ∧ Selector.css ctx0 strRootHtmlSel "p" = Except.ok (strRootHtmlSel, []) :=
  ⟨(C10_non_node_root_yields_empty ctx0 strRootHtmlSel "p" Option.none
      (Or.inl rfl) rfl).1,
   (C10_non_node_root_yields_empty ctx0 strRootHtmlSel "p" Option.none
      (Or.inl rfl) rfl).2 "descendant-or-self::p" rfl⟩

/-- The `root`-argument branch of the constructor always succeeds. -/
theorem initChecked_root_ok (C : Ctx) (ty : Option SType) (ns : Option NsDict)
    (r : PValue) (e : Option String) :
    ∃ s, initChecked C Option.none ty ns (some r) e = Except.ok s :=
  ⟨_, rfl⟩

/-- The decoded-`text` branch of the constructor always succeeds, for
every valid declared kind. -/
theorem initChecked_text_ok (C : Ctx) (ty : Option SType) (ns : Option NsDict)
    (s0 : String) (root : Option PValue) (e : Option String) :
    ∃ s, initChecked C (some (TextArg.str s0)) ty ns root e = Except.ok s := by
  rcases ty with _ | tk
  · exact ⟨_, rfl⟩
  · cases tk <;> exact ⟨_, rfl⟩

/-- With neither `text` nor `root`, the constructor raises. -/
theorem initChecked_no_args (C : Ctx) (ty : Option SType) (ns : Option NsDict)
    (e : Option String) :
    initChecked C Option.none ty ns Option.none e = Except.error PyErr.needTextOrRoot :=
  rfl

/-- With a non-string `text` argument, the constructor raises. -/
theorem initChecked_bad_text (C : Ctx) (a : TextArg) (ha : ∀ str, a ≠ TextArg.str str)
    (ty : Option SType) (ns : Option NsDict) (root : Option PValue) (e : Option String) :
    initChecked C (some a) ty ns root e = Except.error PyErr.textTypeErr := by
  cases a with
  | str s0 => exact absurd rfl (ha s0)
  | bytes bs => rfl
  | other => rfl

/-- `__init__` with a recognized type string reduces to the checked
constructor. -/
theorem init_some_type (C : Ctx) (text : Option TextArg) (ts : String) (tk : SType)
    (hst : strToType ts = some tk) (ns : Option NsDict) (root : Option PValue)
    (e : Option String) :
    Selector.init C text (some ts) ns root e = initChecked C text (some tk) ns root e := by
  simp only [Selector.init]
  rw [hst]

/-- `__init__` with an unrecognized type string raises before any other
check. -/
theorem init_bad_type (C : Ctx) (text : Option TextArg) (ts : String)
    (hst : strToType ts = Option.none) (ns : Option NsDict) (root : Option PValue)
    (e : Option String) :
    Selector.init C text (some ts) ns root e = Except.error (PyErr.invalidTypeErr ts) := by
  simp only [Selector.init]
  rw [hst]

/-- C7: constructing a Selector fails exactly when the declared kind is
not one of html/xml/json/text, or neither `text` nor `root` is supplied,
or the `text` argument is not decoded character data; in every other
case construction succeeds. -/
theorem C7_constructor_error_conditions (C : Ctx) (text : Option TextArg)
    (ty : Option String) (ns : Option NsDict) (root : Option PValue)
    (e : Option String) :
    (∃ s, Selector.init C text ty ns root e = Except.ok s) ↔
      ¬ ((∃ ts, ty = some ts ∧ strToType ts = Option.none)
         ∨ (text = Option.none ∧ root = Option.none)
         ∨ (∃ a, text = some a ∧ ∀ str, a ≠ TextArg.str str)) := by
  constructor
  · rintro ⟨s, hs⟩ hbad
    rcases hbad with ⟨ts, hty, hst⟩ | ⟨htext, hroot⟩ | ⟨a, hta, hne⟩
    · subst hty
      rw [init_bad_type C text ts hst ns root e] at hs
      exact Except.noConfusion hs
    · subst htext
      subst hroot
      rcases ty with _ | ts
      · rw [show Selector.init C Option.none Option.none ns Option.none e =
              initChecked C Option.none Option.none ns Option.none e from rfl,
            initChecked_no_args] at hs
        exact Except.noConfusion hs
      · cases hst : strToType ts with
        | none =>
          rw [init_bad_type C Option.none ts hst ns Option.none e] at hs
          exact Except.noConfusion hs
        | some tk =>
          rw [init_some_type C Option.none ts tk hst ns Option.none e,
              initChecked_no_args] at hs
          exact Except.noConfusion hs
    · subst hta
      rcases ty with _ | ts
      · rw [show Selector.init C (some a) Option.none ns root e =
              initChecked C (some a) Option.none ns root e from rfl,
            initChecked_bad_text C a hne Option.none ns root e] at hs
        exact Except.noConfusion hs
      · cases hst : strToType ts with
        | none =>
          rw [init_bad_type C (some a) ts hst ns root e] at hs
          exact Except.noConfusion hs
        | some tk =>
          rw [init_some_type C (some a) ts tk hst ns root e,
              initChecked_bad_text C a hne (some tk) ns root e] at hs
          exact Except.noConfusion hs
  · intro hn
    push_neg at hn
    obtain ⟨hn1, hn2, hn3⟩ := hn
    rcases text with _ | a
    · rcases root with _ | r
      · exact absurd rfl (hn2 rfl)
      · rcases ty with _ | ts
        · exact initChecked_root_ok C Option.none ns r e
        · cases hst : strToType ts with
          | none => exact absurd hst (hn1 ts rfl)
          | some tk =>
            rw [init_some_type C Option.none ts tk hst ns (some r) e]
            exact initChecked_root_ok C (some tk) ns r e
    · obtain ⟨s0, ha⟩ := hn3 a rfl
      subst ha
      rcases ty with _ | ts
      · exact initChecked_text_ok C Option.none ns s0 root e
      · cases hst : strToType ts with
        | none => exact absurd hst (hn1 ts rfl)
        | some tk =>
          rw [init_some_type C (some (TextArg.str s0)) ts tk hst ns root e]
          exact initChecked_text_ok C (some tk) ns s0 root e

/-- Results of a successful `xpathCore` run all carry the wrapping
selector's registry re-seeded through the constructor. -/
theorem xpathCore_ok_namespaces (C : Ctx) (s2 : Selector) (q : String) (nsp : NsDict)
    (res : List Selector) (h : Selector.xpathCore C s2 q nsp = Except.ok res) :
    ∀ r ∈ res, r.namespaces = nsUpd defaultNamespaces s2.namespaces := by
  unfold Selector.xpathCore at h
  cases hr : s2.root <;> rw [hr] at h <;> simp only [] at h <;>
    try { injection h with h1; subst h1; intro r hrmem; cases hrmem }
  case pyElem i tx =>
    cases hev : C.xpathEval (PValue.pyElem i tx) q nsp with
    | none =>
      rw [hev] at h
      simp only [] at h
      exact Except.noConfusion h
    | some result =>
      rw [hev] at h
      simp only [] at h
      intro r hrmem
      obtain ⟨x, hx, hfx⟩ := mapExcept_mem _ _ res h r hrmem
      rw [init_root_eq C (typeToStr s2.type) s2.type (strToType_typeToStr s2.type)
            (some s2.namespaces) x (some q)] at hfx
      injection hfx with h1
      subst h1
      rfl

/-- C6: an xpath call with a call-scoped namespaces mapping `N`
evaluates with the instance registry merged with `N` (`N` wins on
collision), leaves the instance registry unchanged, and hands every
result selector the instance registry, not the merged one. -/
theorem C6_call_scoped_namespaces (C : Ctx) (s : Selector) (q : String) (N : NsDict)
    (m : NsDict) (hm : s.namespaces = nsUpd defaultNamespaces m) :
    (∀ k v, N k = some v → nsUpd s.namespaces N k = some v)
  ∧ (∀ k, N k = Option.none → nsUpd s.namespaces N k = s.namespaces k)
  ∧ ((s.type = SType.html ∨ s.type = SType.xml) →
       Selector.xpath C s q (some N) =
         (match Selector.xpathCore C s q (nsUpd s.namespaces N) with
          | Except.error e2 => Except.error e2
          | Except.ok res => Except.ok (s, res)))
  ∧ (∀ s1 res, Selector.xpath C s q (some N) = Except.ok (s1, res) →
       s1.namespaces = s.namespaces ∧ ∀ r ∈ res, r.namespaces = s.namespaces) := by
  refine ⟨?_, ?_, ?_, ?_⟩
  · intro k v h
    simp [nsUpd, h]
  · intro k h
    simp [nsUpd, h]
  · intro ht
    unfold Selector.xpath
    rw [promoteTree_tree C s (PyErr.cannotUseXpathOn s.type) ht]
  · intro s1 res h
    unfold Selector.xpath at h
    cases hp : Selector.promoteTree C s (PyErr.cannotUseXpathOn s.type) with
    | error e2 =>
      rw [hp] at h
      simp only [] at h
      exact Except.noConfusion h
    | ok s2 =>
      rw [hp] at h
      simp only [] at h
      obtain ⟨hns2, hraw2, htree2⟩ :=
        promoteTree_ok C s (PyErr.cannotUseXpathOn s.type) s2 hp
      cases hcore : Selector.xpathCore C s2 q (nsUpd s2.namespaces N) with
      | error e2 =>
        rw [hcore] at h
        simp only [] at h
        exact Except.noConfusion h
      | ok results =>
        rw [hcore] at h
        simp only [] at h
        injection h with h1
        have h2 : s2 = s1 := congrArg Prod.fst h1
        have h3 : results = res := congrArg Prod.snd h1
        subst h2
        subst h3
        refine ⟨hns2, ?_⟩
        intro r hrmem
        have hrn := xpathCore_ok_namespaces C s2 q (nsUpd s2.namespaces N) results
          hcore r hrmem
        rw [hrn, hns2, hm, nsUpd_defaults_idem]

/-- Witness for C6 at a concrete call-scoped mapping. -/
theorem C6_witness :
    (∀ k v, extraNs k = some v → nsUpd htmlElemSel.namespaces extraNs k = some v)
  ∧ (∀ k, extraNs k = Option.none →
       nsUpd htmlElemSel.namespaces extraNs k = htmlElemSel.namespaces k)
  ∧ ((htmlElemSel.type = SType.html ∨ htmlElemSel.type = SType.xml) →
       Selector.xpath ctx0 htmlElemSel "//p" (some extraNs) =
         (match Selector.xpathCore ctx0 htmlElemSel "//p"
                  (nsUpd htmlElemSel.namespaces extraNs) with
          | Except.error e2 => Except.error e2
          | Except.ok res => Except.ok (htmlElemSel, res)))
  ∧ (∀ s1 res, Selector.xpath ctx0 htmlElemSel "//p" (some extraNs) = Except.ok (s1, res) →
       s1.namespaces = htmlElemSel.namespaces
       ∧ ∀ r ∈ res, r.namespaces = htmlElemSel.namespaces) :=
  C6_call_scoped_namespaces ctx0 htmlElemSel "//p" extraNs (fun _ => Option.none) rfl

/-- C2: `remove()` raises `CannotRemoveElementWithoutRoot` exactly when
the held value is not a tree element (no `getparent` at all), raises
`CannotRemoveElementWithoutParent` exactly when the held element is the
document root (its parent is `None`), and otherwise unlinks the element
from its parent's child list, clearing its parent pointer; the detached
node stays detached (a second `remove()` raises
`CannotRemoveElementWithoutParent`), attached-to-detached being the only
transition. -/
theorem C2_remove_state_machine (doc : Doc) (s : Selector) :
    (Selector.remove doc s = Except.error PyErr.cannotRemoveWithoutRoot ↔
       s.root.isElem = false)
  ∧ (Selector.remove doc s = Except.error PyErr.cannotRemoveWithoutParent ↔
       ∃ i tx n, s.root = PValue.pyElem i tx ∧ doc.nodes[i]? = some n
         ∧ n.parent = Option.none)
  ∧ (∀ i tx n j pn, s.root = PValue.pyElem i tx → doc.nodes[i]? = some n →
       n.parent = some j → doc.nodes[j]? = some pn → i ≠ j →
       ∃ doc2, Selector.remove doc s = Except.ok doc2
         ∧ doc2.nodes[j]? = some { pn with children := pn.children.erase i }
         ∧ doc2.nodes[i]? = some { n with parent := Option.none }
         ∧ (∀ k, k ≠ i → k ≠ j → doc2.nodes[k]? = doc.nodes[k]?)
         ∧ doc2.nodes.length = doc.nodes.length
         ∧ Selector.remove doc2 s = Except.error PyErr.cannotRemoveWithoutParent) := by
  refine ⟨⟨?_, ?_⟩, ⟨?_, ?_⟩, ?_⟩
  · intro h
    cases hr : s.root <;> try rfl
    case pyElem i tx =>
      exfalso
      simp only [Selector.remove, hr] at h
      cases hni : doc.nodes[i]? with
      | none =>
        rw [hni] at h
        simp only [] at h
        injection h with hc
        exact absurd hc (by decide)
      | some node =>
        rw [hni] at h
        simp only [] at h
        cases hp : node.parent with
        | none =>
          rw [hp] at h
          simp only [] at h
          injection h with hc
          exact absurd hc (by decide)
        | some j =>
          rw [hp] at h
          simp only [] at h
          cases hnj : doc.nodes[j]? with
          | none =>
            rw [hnj] at h
            simp only [] at h
            injection h with hc
            exact absurd hc (by decide)
          | some pn =>
            rw [hnj] at h
            simp only [] at h
            exact Except.noConfusion h
  · intro h
    cases hr : s.root <;> (simp only [Selector.remove, hr]; try rfl)
    case pyElem i tx =>
      rw [hr] at h
      simp [PValue.isElem] at h
  · intro h
    cases hr : s.root <;> simp only [Selector.remove, hr] at h
    case pyElem i tx =>
      cases hni : doc.nodes[i]? with
      | none =>
        rw [hni] at h
        simp only [] at h
        injection h with hc
        exact absurd hc (by decide)
      | some node =>
        rw [hni] at h
        simp only [] at h
        cases hp : node.parent with
        | none => exact ⟨i, tx, node, rfl, hni, hp⟩
        | some j =>
          rw [hp] at h
          simp only [] at h
          cases hnj : doc.nodes[j]? with
          | none =>
            rw [hnj] at h
            simp only [] at h
            injection h with hc
            exact absurd hc (by decide)
          | some pn =>
            rw [hnj] at h
            simp only [] at h
            exact Except.noConfusion h
    all_goals {
      injection h with hc
      exact absurd hc (by decide)
    }
  · rintro ⟨i, tx, n, hr, hni, hp⟩
    simp only [Selector.remove, hr]
    rw [hni]
    simp only []
    rw [hp]
  · intro i tx n j pn hr hni hp hnj hij
    have hilt : i < doc.nodes.length := by
      obtain ⟨hlt, _⟩ := List.getElem?_eq_some_iff.mp hni
      exact hlt
    have hjlt : j < doc.nodes.length := by
      obtain ⟨hlt, _⟩ := List.getElem?_eq_some_iff.mp hnj
      exact hlt
    have hns1i :
        (doc.nodes.set j { pn with children := pn.children.erase i })[i]? = some n := by
      rw [List.getElem?_set_ne (Ne.symm hij)]
      exact hni
    refine ⟨⟨(doc.nodes.set j { pn with children := pn.children.erase i }).set i
              { n with parent := Option.none }⟩, ?_, ?_, ?_, ?_, ?_, ?_⟩
    · simp only [Selector.remove, hr]
      rw [hni]
      simp only []
      rw [hp]
      simp only []
      rw [hnj]
      simp only []
      rw [hns1i]
    · rw [List.getElem?_set_ne hij, List.getElem?_set_self hjlt]
    · rw [List.getElem?_set_self]
      simp [hjlt, hilt]
    · intro k hki hkj
      rw [List.getElem?_set_ne (Ne.symm hki), List.getElem?_set_ne (Ne.symm hkj)]
    · simp
    · have hd2i :
          ((doc.nodes.set j { pn with children := pn.children.erase i }).set i
              { n with parent := Option.none })[i]? =
            some { n with parent := Option.none } := by
        rw [List.getElem?_set_self]
        simp [hjlt, hilt]
      simp only [Selector.remove, hr]
      rw [hd2i]

/-- The 2-node document used by the C2 witness: a root whose single
child is node 1. -/
def doc0 : Doc := ⟨[⟨Option.none, [1]⟩, ⟨some 0, []⟩]⟩

/-- A selector holding the child element of `doc0`. -/
def childSel : Selector :=
  { type := SType.html, root := PValue.pyElem 1 Option.none,
    namespaces := defaultNamespaces, expr := Option.none, rawText := Option.none }

/-- Witness for C2: removing the child of the 2-node document detaches
it, and removing it again fails with `CannotRemoveElementWithoutParent`. -/
theorem C2_witness :
    ∃ doc2, Selector.remove doc0 childSel = Except.ok doc2
      ∧ doc2.nodes[0]? = some { parent := Option.none, children := ([1].erase 1 : List Nat) }
      ∧ doc2.nodes[1]? = some { parent := Option.none, children := ([] : List Nat) }
      ∧ (∀ k, k ≠ 1 → k ≠ 0 → doc2.nodes[k]? = doc0.nodes[k]?)
      ∧ doc2.nodes.length = doc0.nodes.length
      ∧ Selector.remove doc2 childSel = Except.error PyErr.cannotRemoveWithoutParent :=
  (C2_remove_state_machine doc0 childSel).2.2 1 Option.none ⟨some 0, []⟩ 0 ⟨Option.none, [1]⟩
    rfl rfl rfl rfl (by decide)

/-- A type string accepted by the constructor is the canonical name of
its kind. -/
theorem strToType_inv (ts : String) (tk : SType) (h : strToType ts = some tk) :
    ts = typeToStr tk := by
  unfold strToType at h
  split at h
  case isTrue h1 => injection h with h2; subst h2; exact h1
  case isFalse h1 =>
    split at h
    case isTrue h2 => injection h with h3; subst h3; exact h2
    case isFalse h2 =>
      split at h
      case isTrue h3 => injection h with h4; subst h4; exact h3
      case isFalse h3 =>
        split at h
        case isTrue h4 => injection h with h5; subst h5; exact h4
        case isFalse h4 => exact Option.noConfusion h

/-- The empty string is not an accepted type string. -/
theorem strToType_empty : strToType "" = Option.none := rfl

/-- A `mapExcept` over a total per-element operation succeeds. -/
theorem mapExcept_total {ε α β : Type} (f : α → Except ε β)
    (h : ∀ x, ∃ y, f x = Except.ok y) :
    ∀ xs, ∃ ys, mapExcept f xs = Except.ok ys := by
  intro xs
  induction xs with
  | nil => exact ⟨[], rfl⟩
  | cons a as ih =>
    obtain ⟨y, hy⟩ := h a
    obtain ⟨ys, hys⟩ := ih
    refine ⟨y :: ys, ?_⟩
    unfold mapExcept
    rw [hy, hys]

/-- `Selector.jmespath` unfolded at a resolved document value. -/
theorem jmespath_eq (C : Ctx) (s : Selector) (q : String) (tyArg : Option String)
    (data : PValue) (hd : Selector.jmesData C s = Except.ok data) :
    Selector.jmespath C s q tyArg =
      mapExcept (jmesWrap C q tyArg)
        (match C.jmesSearch q data with
         | PValue.pyNone => []
         | PValue.pyList xs => xs
         | r => [r]) := by
  unfold Selector.jmespath
  rw [hd]

/-- Wrapping a JMESPath result item with an explicit valid kind override
always yields a selector of exactly the override kind — for string items
as well as non-string items. -/
theorem wrap_override_type (C : Ctx) (q : String) (ts : String) (tk : SType)
    (hst : strToType ts = some tk) (x : PValue) (r1 : Selector)
    (h : jmesWrap C q (some ts) x = Except.ok r1) :
    r1.type = tk := by
  unfold jmesWrap at h
  have hts0 : ¬ ts = "" := by
    intro h0
    rw [h0, strToType_empty] at hst
    exact Option.noConfusion hst
  have hor : pyOrText (some ts) = ts := by
    simp only [pyOrText]
    rw [if_neg hts0]
  have hts : ts = typeToStr tk := strToType_inv ts tk hst
  cases x <;> simp only [] at h <;>
    try { rw [init_root_eq C ts tk hst Option.none _ (some q)] at h;
          injection h with h1; subst h1; rfl }
  case pyStr t =>
    rw [hor, hts] at h
    cases tk
    case html =>
      simp only [typeToStr] at h
      rw [init_text_html_eq C t Option.none Option.none (some q)] at h
      injection h with h1
      subst h1
      rfl
    case xml =>
      simp only [typeToStr] at h
      rw [init_text_xml_eq C t Option.none Option.none (some q)] at h
      injection h with h1
      subst h1
      rfl
    case json =>
      simp only [typeToStr] at h
      rw [init_text_json_eq C t Option.none Option.none (some q)] at h
      injection h with h1
      subst h1
      rfl
    case text =>
      simp only [typeToStr] at h
      rw [init_text_text_eq C t Option.none Option.none (some q)] at h
      injection h with h1
      subst h1
      rfl

/-- C4 (amended): a `null` evaluator result yields an empty
SelectorList and a single non-sequence result is wrapped into a
1-element SelectorList; with no kind override, a character-string item
is wrapped as kind `text` and a non-string (non-element) item as kind
`json`, results keeping evaluator order; but when a kind override is
given it applies to every item, string items included, which are then
re-interpreted under the override kind. -/
theorem C4_jmespath_wrapping (C : Ctx) (s : Selector) (q : String) (data : PValue)
    (hd : Selector.jmesData C s = Except.ok data) :
    (C.jmesSearch q data = PValue.pyNone →
       ∀ tyArg, Selector.jmespath C s q tyArg = Except.ok [])
  ∧ (∀ t, C.jmesSearch q data = PValue.pyStr t →
       ∃ r1, Selector.jmespath C s q Option.none = Except.ok [r1]
         ∧ r1.type = SType.text ∧ r1.root = PValue.pyStr t)
  ∧ (∀ r, C.jmesSearch q data = r → r.isElem = false → r ≠ PValue.pyNone →
       (∀ t, r ≠ PValue.pyStr t) → (∀ xs, r ≠ PValue.pyList xs) →
       ∃ r1, Selector.jmespath C s q Option.none = Except.ok [r1]
         ∧ r1.type = SType.json ∧ r1.root = r)
  ∧ (∀ xs, C.jmesSearch q data = PValue.pyList xs →
       ∃ rs, Selector.jmespath C s q Option.none = Except.ok rs
         ∧ rs.length = xs.length
         ∧ (∀ k : Nat, ∀ x, xs[k]? = some x →
             ∃ r1, rs[k]? = some r1
               ∧ (∀ t, x = PValue.pyStr t →
                    r1.type = SType.text ∧ r1.root = PValue.pyStr t)
               ∧ (x.isElem = false → (∀ t, x ≠ PValue.pyStr t) →
                    r1.type = SType.json ∧ r1.root = x)))
  ∧ (∀ ts tk, strToType ts = some tk →
       ∀ rs, Selector.jmespath C s q (some ts) = Except.ok rs →
         ∀ r1 ∈ rs, r1.type = tk) := by
  refine ⟨?_, ?_, ?_, ?_, ?_⟩
  · intro hnull tyArg
    rw [jmespath_eq C s q tyArg data hd, hnull]
    rfl
  · intro t hstr
    rw [jmespath_eq C s q Option.none data hd, hstr]
    exact ⟨_, rfl, rfl, rfl⟩
  · intro r hres helem hnn hnstr hnlist
    rw [jmespath_eq C s q Option.none data hd, hres]
    cases r
    case pyNone => exact absurd rfl hnn
    case pyStr t => exact absurd rfl (hnstr t)
    case pyList xs => exact absurd rfl (hnlist xs)
    case pyElem i tx => simp [PValue.isElem] at helem
    case pyBool b => exact ⟨_, rfl, rfl, rfl⟩
    case pyInt n0 => exact ⟨_, rfl, rfl, rfl⟩
    case pyDict kvs => exact ⟨_, rfl, rfl, rfl⟩
  · intro xs hlist
    rw [jmespath_eq C s q Option.none data hd, hlist]
    have htotal : ∀ x, ∃ y, jmesWrap C q Option.none x = Except.ok y := by
      intro x
      cases x <;> exact ⟨_, rfl⟩
    obtain ⟨rs, hrs⟩ := mapExcept_total _ htotal xs
    refine ⟨rs, hrs, mapExcept_ok_length _ _ _ hrs, ?_⟩
    intro k x hx
    have hk := mapExcept_ok_get _ _ _ hrs k
    rw [hx] at hk
    cases x
    case pyStr t =>
      refine ⟨_, hk, ?_, ?_⟩
      · intro t2 heq
        injection heq with h1
        subst h1
        exact ⟨rfl, rfl⟩
      · intro _ hne
        exact absurd rfl (hne t)
    case pyNone =>
      refine ⟨_, hk, ?_, ?_⟩
      · intro t2 heq
        exact nomatch heq
      · intro _ _
        exact ⟨rfl, rfl⟩
    case pyBool b =>
      refine ⟨_, hk, ?_, ?_⟩
      · intro t2 heq
        exact nomatch heq
      · intro _ _
        exact ⟨rfl, rfl⟩
    case pyInt n0 =>
      refine ⟨_, hk, ?_, ?_⟩
      · intro t2 heq
        exact nomatch heq
      · intro _ _
        exact ⟨rfl, rfl⟩
    case pyList ys =>
      refine ⟨_, hk, ?_, ?_⟩
      · intro t2 heq
        exact nomatch heq
      · intro _ _
        exact ⟨rfl, rfl⟩
    case pyDict kvs =>
      refine ⟨_, hk, ?_, ?_⟩
      · intro t2 heq
        exact nomatch heq
      · intro _ _
        exact ⟨rfl, rfl⟩
    case pyElem i tx =>
      refine ⟨_, hk, ?_, ?_⟩
      · intro t2 heq
        exact nomatch heq
      · intro helem _
        simp [PValue.isElem] at helem
  · intro ts tk hst rs hrs r1 hmem
    rw [jmespath_eq C s q (some ts) data hd] at hrs
    obtain ⟨x, hx, hfx⟩ := mapExcept_mem _ _ rs hrs r1 hmem
    exact wrap_override_type C q ts tk hst x r1 hfx

/-- A context whose collaborators behave as the real ones do on the
concrete documents of the examples below: the JMESPath evaluator is the
spec-modelled dotted-field evaluator and `json.loads` rejects every
string handed to it (the strings below are not valid JSON). -/
def ctxJ : Ctx where
  parse := fun _ _ => Option.none
  tostring := fun _ _ => Option.none
  jsonLoads := fun _ => Option.none
  xpathEval := fun _ _ _ => Option.none
  cssToXpath := fun _ _ => Option.none
  jmesSearch := jmesSearchModel
  pyToStr := fun _ => ""

/-- The JSON object mapping "a" to the character string "x". -/
def docAX : PValue := PValue.pyDict [("a", PValue.pyStr "x")]

/-- A json selector over `docAX`. -/
def selAX : Selector :=
  { type := SType.json, root := docAX, namespaces := defaultNamespaces,
    expr := Option.none, rawText := Option.none }

/-- Witness for C4: with no kind override, the string item produced by
the field query over `docAX` is wrapped as kind `text`. -/
theorem C4_witness :
    ∃ r1, Selector.jmespath ctxJ selAX "a" Option.none = Except.ok [r1]
      ∧ r1.type = SType.text ∧ r1.root = PValue.pyStr "x" :=
  (C4_jmespath_wrapping ctxJ selAX "a" docAX rfl).2.1 "x" rfl

/-- C4 counterexample: the claim states that every
character-string-typed item gets kind `text`; but the code passes
`type=type or 'text'` for string items, so with the caller override
`json` the string item "x" (the value of field "a" in `docAX`) is
wrapped as kind `json` (and re-parsed as JSON, storing `None` since "x"
is not valid JSON) — not as kind `text`. -/
theorem C4_counterexample :
    Selector.jmespath ctxJ selAX "a" (some "json") =
      Except.ok [{ type := SType.json, root := PValue.pyNone,
                   namespaces := defaultNamespaces, expr := some "a",
                   rawText := some "x" }]
  ∧ SType.json ≠ SType.text :=
  ⟨rfl, fun h => SType.noConfusion h⟩

/-- The JSON document of the spec example: "a" maps to an object mapping
"b" to the number 5. -/
def docAB : PValue :=
  PValue.pyDict [("a", PValue.pyDict [("b", PValue.pyInt 5)])]

/-- A json selector over `docAB`. -/
def selAB : Selector :=
  { type := SType.json, root := docAB, namespaces := defaultNamespaces,
    expr := Option.none, rawText := Option.none }

/-- The JSON document mapping "a" to the empty object. -/
def docA0 : PValue := PValue.pyDict [("a", PValue.pyDict [])]

/-- A json selector over `docA0`. -/
def selA0 : Selector :=
  { type := SType.json, root := docA0, namespaces := defaultNamespaces,
    expr := Option.none, rawText := Option.none }

/-- C9 (amended): over the document mapping "a" to an object mapping "b"
to 5, `jmespath("a.b")` yields exactly one result whose `get()` is the
native number 5 (not the character string "5"); over the document
mapping "a" to the empty object it yields an empty SelectorList. -/
theorem C9_jmespath_examples :
    (∃ r1, Selector.jmespath ctxJ selAB "a.b" Option.none = Except.ok [r1]
       ∧ Selector.get ctxJ r1 = PValue.pyInt 5)
  ∧ Selector.jmespath ctxJ selA0 "a.b" Option.none = Except.ok [] := by
  constructor
  · exact ⟨_, rfl, rfl⟩
  · rfl

/-- C9 counterexample: the claim asserts the single result's `get()` is
the character string "5"; the code stores and returns the native number
5 (`get()` returns `self.root` unchanged for json selectors). -/
theorem C9_counterexample :
    ∃ r1, Selector.jmespath ctxJ selAB "a.b" Option.none = Except.ok [r1]
      ∧ Selector.get ctxJ r1 ≠ PValue.pyStr "5" :=
  ⟨_, rfl, fun h => PValue.noConfusion h⟩

/-- A context whose JMESPath evaluator behaves as `jmespath.search` does
on the backtick-quoted JMESPath literal expression for the number 1: the
literal evaluates to 1 regardless of the (null) document; `json.loads`
rejects every string (modelling inputs that are not valid JSON). -/
def ctxC5 : Ctx where
  parse := fun _ _ => Option.none
  tostring := fun _ _ => Option.none
  jsonLoads := fun _ => Option.none
  xpathEval := fun _ _ _ => Option.none
  cssToXpath := fun _ _ => Option.none
  jmesSearch := fun q _ => if q = "`1`" then PValue.pyInt 1 else PValue.pyNone
  pyToStr := fun _ => ""

/-- C5 (amended): constructing a json selector from a string that is not
valid JSON never raises and silently stores a null document; every
subsequent jmespath query is evaluated against null without raising, and
whenever the evaluator yields null on the null document (as every
projection query does) the result is the empty SelectorList. -/
theorem C5_invalid_json_fail_soft (C : Ctx) (t : String)
    (hj : C.jsonLoads t = Option.none) :
    ∃ s, Selector.init C (some (TextArg.str t)) (some "json")
           Option.none Option.none Option.none = Except.ok s
      ∧ s.type = SType.json
      ∧ s.root = PValue.pyNone
      ∧ (∀ q tyArg, C.jmesSearch q PValue.pyNone = PValue.pyNone →
           Selector.jmespath C s q tyArg = Except.ok []) := by
  have hroot : loadJsonOrNone C t = PValue.pyNone := by
    unfold loadJsonOrNone
    rw [hj]
  refine ⟨_, init_text_json_eq C t Option.none Option.none Option.none, rfl, hroot, ?_⟩
  intro q tyArg hq
  have hd : Selector.jmesData C
      { type := SType.json, root := loadJsonOrNone C t, namespaces := mkNs Option.none,
        expr := Option.none, rawText := some t } = Except.ok (loadJsonOrNone C t) := rfl
  rw [jmespath_eq C _ q tyArg (loadJsonOrNone C t) hd, hroot, hq]
  rfl

/-- Witness for C5 at a concrete non-JSON input string. -/
theorem C5_witness :
    ∃ s, Selector.init ctxC5 (some (TextArg.str "not json")) (some "json")
           Option.none Option.none Option.none = Except.ok s
      ∧ s.type = SType.json
      ∧ s.root = PValue.pyNone
      ∧ (∀ q tyArg, ctxC5.jmesSearch q PValue.pyNone = PValue.pyNone →
           Selector.jmespath ctxC5 s q tyArg = Except.ok []) :=
  C5_invalid_json_fail_soft ctxC5 "not json" rfl

/-- C5 counterexample: the claim says every subsequent jmespath query on
the null-document selector returns an empty SelectorList; but a query
whose evaluation on null yields a value — as `jmespath.search` does for
the literal expression modelled by `ctxC5` — yields a non-empty
SelectorList. -/
theorem C5_counterexample :
    ∃ s, Selector.init ctxC5 (some (TextArg.str "not json")) (some "json")
           Option.none Option.none Option.none = Except.ok s
      ∧ Selector.jmespath ctxC5 s "`1`" Option.none ≠ Except.ok [] := by
  refine ⟨_, init_text_json_eq ctxC5 "not json" Option.none Option.none Option.none, ?_⟩
  have hcomp : Selector.jmespath ctxC5
      { type := SType.json, root := loadJsonOrNone ctxC5 "not json",
        namespaces := mkNs Option.none, expr := Option.none,
        rawText := some "not json" }
      "`1`" Option.none =
      Except.ok [{ type := SType.json, root := PValue.pyInt 1,
                   namespaces := defaultNamespaces, expr := some "`1`",
                   rawText := Option.none }] := rfl
  intro h
  rw [hcomp] at h
  injection h with h1
  exact List.noConfusion h1

end Parsel

